import Mathlib

/-!
Verification of the hebrew-transliteration package: the canonical sequencer,
the diacritic remover, the Schema/SBL merge, and the transliteration engine.
The Schema and SBL classes are embedded from the repository source; the
function bodies of transliterate, remove and sequence are modelled from the
specification, with behaviour at concrete inputs pinned by the repository's
test expectations.
-/

namespace HebrewTransliteration

/-- Cantillation (taamim) accent code points, HEBREW ACCENT block U+0591..U+05AF. -/
def isTaam (c : Char) : Bool := 0x0591 ≤ c.toNat && c.toNat ≤ 0x05AF

/-- Vowel points (niqqud) U+05B0..U+05BB plus qamats qatan U+05C7. -/
def isVowelPoint (c : Char) : Bool :=
  (0x05B0 ≤ c.toNat && c.toNat ≤ 0x05BB) || c.toNat == 0x05C7

/-- HEBREW POINT DAGESH OR MAPIQ U+05BC. -/
def isDageshPt (c : Char) : Bool := c.toNat == 0x05BC

/-- HEBREW POINT SHIN DOT U+05C1. -/
def isShinDot (c : Char) : Bool := c.toNat == 0x05C1

/-- HEBREW POINT SIN DOT U+05C2. -/
def isSinDot (c : Char) : Bool := c.toNat == 0x05C2

/-- HEBREW POINT METEG U+05BD. -/
def isMeteg (c : Char) : Bool := c.toNat == 0x05BD

/-- HEBREW POINT RAFE U+05BF. -/
def isRafe (c : Char) : Bool := c.toNat == 0x05BF

/-- HEBREW PUNCTUATION MAQAF U+05BE. -/
def isMaqafPt (c : Char) : Bool := c.toNat == 0x05BE

/-- HEBREW PUNCTUATION PASEQ U+05C0. -/
def isPaseqPt (c : Char) : Bool := c.toNat == 0x05C0

/-- HEBREW PUNCTUATION SOF PASUQ U+05C3. -/
def isSofPasuq (c : Char) : Bool := c.toNat == 0x05C3

/-- Consonant-dot ordering class: dagesh/mappiq, shin dot, sin dot. -/
def isDotClass (c : Char) : Bool := isDageshPt c || isShinDot c || isSinDot c

/-- Modelled from the spec: the Mark Classifier's notion of a combining mark
(src/sequence implementation is not in the source tree).  A combining mark is
a consonant dot, a vowel point, an accent, meteg, rafe, or one of the
unclassified combining points U+05C4/U+05C5. -/
def isMark (c : Char) : Bool :=
  isDotClass c || isVowelPoint c || isTaam c || isMeteg c || isRafe c ||
    c.toNat == 0x05C4 || c.toNat == 0x05C5

/-- Modelled from the spec: the Mark Classifier's ordering rank
(1 = dagesh/shin-dot/sin-dot, 2 = vowel point, 3 = accent/meteg/rafe,
4 = unclassified, sorts last). -/
def rank (c : Char) : Nat :=
  if isDotClass c then 1
  else if isVowelPoint c then 2
  else if isTaam c || isMeteg c || isRafe c then 3
  else 4

/-- Modelled from the spec: stable sort of a run of combining marks by
classifier rank; marks sharing a rank keep their relative input order. -/
def sortMarks (ms : List Char) : List Char :=
  ms.filter (fun c => rank c == 1) ++ ms.filter (fun c => rank c == 2) ++
    ms.filter (fun c => rank c == 3) ++ ms.filter (fun c => rank c == 4)

theorem lenDropWhileLe (p : Char → Bool) (l : List Char) :
    (l.dropWhile p).length ≤ l.length := by
  induction l with
  | nil => simp [List.dropWhile]
  | cons c rest ih =>
    simp only [List.dropWhile]
    cases p c
    · simp
    · simp
      omega

/-- Modelled from the spec: the Canonical Sequencer on a list of code points.
Each maximal run beginning at a base (non-mark) character and extending
through the immediately following combining marks has its marks stably
sorted by rank; characters outside any run are copied unchanged
(src/sequence implementation is not in the source tree). -/
def seqList : List Char → List Char
  | [] => []
  | c :: rest =>
    if isMark c then
      c :: seqList rest
    else
      c :: (sortMarks (rest.takeWhile isMark) ++ seqList (rest.dropWhile isMark))
termination_by l => l.length
decreasing_by
  · simp
  · have := lenDropWhileLe isMark rest
    simp
    omega

/-- Modelled from the spec: the public sequence operation. -/
def sequence (s : String) : String := ⟨seqList s.data⟩

theorem rank_filter_ne (i j : Nat) (hij : i ≠ j) (ms : List Char) :
    (ms.filter (fun c => rank c == j)).filter (fun c => rank c == i) = [] := by
  rw [List.filter_eq_nil_iff]
  intro a ha
  have hj := (List.mem_filter.mp ha).2
  simp only [beq_iff_eq] at hj ⊢
  omega

theorem rank_filter_eq (i : Nat) (ms : List Char) :
    (ms.filter (fun c => rank c == i)).filter (fun c => rank c == i)
      = ms.filter (fun c => rank c == i) := by
  rw [List.filter_eq_self]
  intro a ha
  exact (List.mem_filter.mp ha).2

theorem sortMarks_idem (ms : List Char) : sortMarks (sortMarks ms) = sortMarks ms := by
  unfold sortMarks
  simp only [List.filter_append]
  rw [rank_filter_eq 1, rank_filter_eq 2, rank_filter_eq 3, rank_filter_eq 4]
  rw [rank_filter_ne 1 2 (by omega), rank_filter_ne 1 3 (by omega),
    rank_filter_ne 1 4 (by omega), rank_filter_ne 2 1 (by omega),
    rank_filter_ne 2 3 (by omega), rank_filter_ne 2 4 (by omega),
    rank_filter_ne 3 1 (by omega), rank_filter_ne 3 2 (by omega),
    rank_filter_ne 3 4 (by omega), rank_filter_ne 4 1 (by omega),
    rank_filter_ne 4 2 (by omega), rank_filter_ne 4 3 (by omega)]
  simp

theorem mem_sortMarks {c : Char} {ms : List Char} (h : c ∈ sortMarks ms) : c ∈ ms := by
  unfold sortMarks at h
  simp only [List.mem_append, List.mem_filter] at h
  tauto

theorem mem_takeWhile_sat (p : Char → Bool) :
    ∀ (l : List Char) (c : Char), c ∈ l.takeWhile p → p c = true := by
  intro l
  induction l with
  | nil => intro c hc; simp [List.takeWhile] at hc
  | cons a rest ih =>
    intro c hc
    simp only [List.takeWhile] at hc
    cases ha : p a with
    | false => rw [ha] at hc; simp at hc
    | true =>
      rw [ha] at hc
      simp only [List.mem_cons] at hc
      rcases hc with rfl | hc
      · exact ha
      · exact ih c hc

theorem head_dropWhile_not (p : Char → Bool) :
    ∀ (l : List Char) (c : Char), (l.dropWhile p).head? = some c → p c = false := by
  intro l
  induction l with
  | nil => intro c hc; simp [List.dropWhile] at hc
  | cons a rest ih =>
    intro c hc
    simp only [List.dropWhile] at hc
    cases ha : p a with
    | true => rw [ha] at hc; exact ih c hc
    | false =>
      rw [ha] at hc
      simp only [List.head?] at hc
      cases hc
      exact ha

theorem takeWhile_append_all (p : Char → Bool) (xs ys : List Char)
    (h1 : ∀ x ∈ xs, p x = true) (h2 : ys.takeWhile p = []) :
    (xs ++ ys).takeWhile p = xs := by
  induction xs with
  | nil => simpa using h2
  | cons a rest ih =>
    have ha : p a = true := h1 a (by simp)
    simp only [List.cons_append, List.takeWhile, ha]
    exact congrArg (List.cons a) (ih (fun x hx => h1 x (by simp [hx])))

theorem dropWhile_append_all (p : Char → Bool) (xs ys : List Char)
    (h1 : ∀ x ∈ xs, p x = true) (h2 : ys.takeWhile p = []) :
    (xs ++ ys).dropWhile p = ys := by
  induction xs with
  | nil =>
    simp only [List.nil_append]
    cases ys with
    | nil => simp [List.dropWhile]
    | cons b t =>
      simp only [List.takeWhile] at h2
      cases hb : p b with
      | true => rw [hb] at h2; simp at h2
      | false => simp [List.dropWhile, hb]
  | cons a rest ih =>
    have ha : p a = true := h1 a (by simp)
    simp only [List.cons_append, List.dropWhile, ha]
    exact ih (fun x hx => h1 x (by simp [hx]))

theorem seqList_head_not_mark (l : List Char)
    (h : ∀ c, l.head? = some c → isMark c = false) :
    (seqList l).takeWhile isMark = [] := by
  cases l with
  | nil => simp [seqList, List.takeWhile]
  | cons c rest =>
    have hc : isMark c = false := h c (by simp)
    rw [seqList]
    simp [hc, List.takeWhile]

theorem seqList_idem (l : List Char) : seqList (seqList l) = seqList l := by
  suffices H : ∀ n (l : List Char), l.length ≤ n → seqList (seqList l) = seqList l from
    H l.length l le_rfl
  intro n
  induction n with
  | zero =>
    intro l hl
    have : l = [] := by cases l <;> simp_all
    subst this
    simp [seqList]
  | succ n ih =>
    intro l hl
    cases l with
    | nil => simp [seqList]
    | cons c rest =>
      simp only [List.length_cons, Nat.succ_le_succ_iff] at hl
      by_cases hc : isMark c = true
      · rw [seqList, if_pos hc, seqList, if_pos hc, ih rest hl]
      · have hcf : isMark c = false := by simpa using hc
        rw [seqList, if_neg (by simp [hcf])]
        set M := sortMarks (rest.takeWhile isMark) with hM
        set T := seqList (rest.dropWhile isMark) with hT
        have hMall : ∀ x ∈ M, isMark x = true := by
          intro x hx
          exact mem_takeWhile_sat isMark rest x (mem_sortMarks hx)
        have hTnil : T.takeWhile isMark = [] := by
          rw [hT]
          apply seqList_head_not_mark
          intro d hd
          exact head_dropWhile_not isMark rest d hd
        rw [seqList, if_neg (by simp [hcf])]
        rw [takeWhile_append_all isMark M T hMall hTnil,
          dropWhile_append_all isMark M T hMall hTnil]
        rw [hM, sortMarks_idem]
        have hdl : (rest.dropWhile isMark).length ≤ n :=
          le_trans (lenDropWhileLe isMark rest) hl
        rw [hT, ih (rest.dropWhile isMark) hdl]

/-- Claim C6: re-running the canonical sequencer on already-sequenced text is a
no-op: for every input string x, sequence (sequence x) = sequence x. -/
theorem sequence_idempotent (x : String) : sequence (sequence x) = sequence x := by
  unfold sequence
  exact congrArg String.mk (seqList_idem x.data)

/-- Modelled from the spec: RemoveOptions is a set of independent boolean
flags, one per diacritic category (src/remove implementation is not in the
source tree; flag names follow the README's examples). -/
structure RemoveOptions where
  ACCENTS : Bool := false
  VOWELS : Bool := false
  METEG : Bool := false
  RAFE : Bool := false
  SHIN_DOT : Bool := false
  SIN_DOT : Bool := false
  DAGESH : Bool := false
  MAQAF : Bool := false
  PASEQ : Bool := false
  SOF_PASUQ : Bool := false
deriving DecidableEq

/-- Modelled from the spec: whether a code point's diacritic category flag is
set in the given options. -/
def removedBy (o : RemoveOptions) (c : Char) : Bool :=
  (o.ACCENTS && isTaam c) || (o.VOWELS && isVowelPoint c) || (o.METEG && isMeteg c) ||
    (o.RAFE && isRafe c) || (o.SHIN_DOT && isShinDot c) || (o.SIN_DOT && isSinDot c) ||
    (o.DAGESH && isDageshPt c) || (o.MAQAF && isMaqafPt c) || (o.PASEQ && isPaseqPt c) ||
    (o.SOF_PASUQ && isSofPasuq c)

/-- Modelled from the spec: per-codepoint action of the diacritic remover.  A
removed maqaf is replaced by a space, as the repository's remove tests show;
every other removed code point is deleted. -/
def removeChar (o : RemoveOptions) (c : Char) : List Char :=
  if removedBy o c then (if isMaqafPt c then [' '] else []) else [c]

/-- Modelled from the spec: the diacritic remover over a list of code points. -/
def removeList (o : RemoveOptions) : List Char → List Char
  | [] => []
  | c :: rest => removeChar o c ++ removeList o rest

/-- Modelled from the spec: the default options remove cantillation accents,
meteg, and rafe only. -/
def defaultRemoveOptions : RemoveOptions := { ACCENTS := true, METEG := true, RAFE := true }

/-- Modelled from the spec: the public remove operation; when no options
object is supplied the defaults are used, an explicit object is used as-is. -/
def remove (text : String) (opts : Option RemoveOptions) : String :=
  ⟨removeList (opts.getD defaultRemoveOptions) text.data⟩

theorem removedBy_maqaf (o : RemoveOptions) (c : Char) (h : isMaqafPt c = true) :
    removedBy o c = o.MAQAF := by
  simp only [isMaqafPt, beq_iff_eq] at h
  simp only [removedBy, isTaam, isVowelPoint, isMeteg, isRafe, isShinDot, isSinDot,
    isDageshPt, isMaqafPt, isPaseqPt, isSofPasuq, h]
  cases o.MAQAF <;> cases o.ACCENTS <;> cases o.VOWELS <;> cases o.METEG <;> simp

theorem removeList_eq_filter (o : RemoveOptions) (hmq : o.MAQAF = false)
    (l : List Char) : removeList o l = l.filter (fun c => !(removedBy o c)) := by
  induction l with
  | nil => rfl
  | cons c rest ih =>
    by_cases hr : removedBy o c = true
    · have hm : isMaqafPt c = false := by
        by_contra hcon
        have hmt : isMaqafPt c = true := by simpa using hcon
        rw [removedBy_maqaf o c hmt, hmq] at hr
        exact Bool.false_ne_true hr
      simp [removeList, removeChar, hr, hm, List.filter, ih]
    · have hrf : removedBy o c = false := by simpa using hr
      simp [removeList, removeChar, hrf, List.filter, ih]

theorem removedBy_default (c : Char) :
    removedBy defaultRemoveOptions c = (isTaam c || isMeteg c || isRafe c) := by
  simp only [removedBy, defaultRemoveOptions]
  cases isTaam c <;> cases isMeteg c <;> cases isRafe c <;> simp

/-- Claim C4: with no options object, remove deletes exactly the cantillation
accents, meteg, and rafe, and the default category test is false on every
vowel point and consonant dot (shin dot, sin dot, dagesh). -/
theorem remove_default_categories :
    (∀ x : String,
        remove x none = ⟨x.data.filter (fun c => !(isTaam c || isMeteg c || isRafe c))⟩)
    ∧ ∀ c : Char, (isVowelPoint c || isDotClass c) = true →
        removedBy defaultRemoveOptions c = false := by
  constructor
  · intro x
    unfold remove
    rw [Option.getD_none, removeList_eq_filter defaultRemoveOptions rfl]
    congr 1
    apply List.filter_congr
    intro c _
    rw [removedBy_default]
  · intro c hc
    rw [removedBy_default]
    simp only [isVowelPoint, isDotClass, isDageshPt, isShinDot, isSinDot, Bool.or_eq_true,
      Bool.and_eq_true, decide_eq_true_eq, beq_iff_eq] at hc
    simp only [isTaam, isMeteg, isRafe, Bool.or_eq_false_iff, Bool.and_eq_false_iff,
      decide_eq_false_iff_not, beq_eq_false_iff_ne, ne_eq, not_le]
    omega

/-- Closed instance of remove_default_categories: removing with default
options from a word with a sin dot, vowels and an accent deletes only the
accent, and the dagesh point is not in the default removal set. -/
theorem remove_default_categories_witness :
    remove "שָׂרַ֣י" none = "שָׂרַי"
    ∧ removedBy defaultRemoveOptions 'ּ' = false := by
  constructor
  · rw [remove_default_categories.1 "שָׂרַ֣י"]
    rfl
  · exact remove_default_categories.2 'ּ' (by decide)

/-- Options object that removes only the shin and sin dots, matching the
repository's custom remove test. -/
def shinSinOnly : RemoveOptions := { SHIN_DOT := true, SIN_DOT := true }

theorem removedBy_shinSin (c : Char) :
    removedBy shinSinOnly c = (isShinDot c || isSinDot c) := by
  simp only [removedBy, shinSinOnly]
  cases isShinDot c <;> cases isSinDot c <;> simp

/-- Claim C5: an explicitly supplied options object is used exactly as given
with no merging onto the defaults: removing with only SHIN_DOT and SIN_DOT
set deletes exactly the shin/sin dots, and for any options object whose
ACCENTS flag is false, an accent code point is kept even though the default
options would remove it. -/
theorem remove_options_as_given :
    (∀ x : String,
        remove x (some shinSinOnly) = ⟨x.data.filter (fun c => !(isShinDot c || isSinDot c))⟩)
    ∧ ∀ (o : RemoveOptions) (c : Char), o.ACCENTS = false → isTaam c = true →
        removeChar o c = [c] := by
  constructor
  · intro x
    unfold remove
    rw [Option.getD_some, removeList_eq_filter shinSinOnly rfl]
    congr 1
    apply List.filter_congr
    intro c _
    rw [removedBy_shinSin]
  · intro o c hacc htaam
    simp only [isTaam, Bool.and_eq_true, decide_eq_true_eq] at htaam
    have hrb : removedBy o c = false := by
      simp only [removedBy, hacc, Bool.false_and, Bool.false_or, isVowelPoint, isMeteg,
        isRafe, isShinDot, isSinDot, isDageshPt, isMaqafPt, isPaseqPt, isSofPasuq,
        Bool.or_eq_false_iff, Bool.and_eq_false_iff]
      refine ⟨⟨⟨⟨⟨⟨⟨⟨?_, ?_⟩, ?_⟩, ?_⟩, ?_⟩, ?_⟩, ?_⟩, ?_⟩, ?_⟩ <;>
        right <;> simp <;> omega
    simp [removeChar, hrb]

/-- Closed instance of remove_options_as_given: the repository's custom
remove test input, where only shin/sin dots are removed and the accents stay. -/
theorem remove_options_as_given_witness :
    remove "שָׂרַ֣י" (some shinSinOnly) = "שָרַ֣י"
    ∧ removeChar shinSinOnly '֑' = ['֑'] := by
  constructor
  · rw [remove_options_as_given.1 "שָׂרַ֣י"]
    rfl
  · exact remove_options_as_given.2 shinSinOnly '֑' rfl (by decide)

/-- Options object with every diacritic category flag false. -/
def allFalseOptions : RemoveOptions := {}

/-- Claim C7: remove with an options object in which every category flag is
false returns the input unchanged, for every input string. -/
theorem remove_no_flags_identity (x : String) : remove x (some allFalseOptions) = x := by
  have h : ∀ l : List Char, removeList allFalseOptions l = l := by
    intro l
    induction l with
    | nil => rfl
    | cons c rest ih =>
      have hrb : removedBy allFalseOptions c = false := by
        simp [removedBy, allFalseOptions]
      simp [removeList, removeChar, hrb, ih]
  cases x with
  | mk data => exact congrArg String.mk (h data)

/-- DAGESH_CHAZAQ policy from the Schema class: a boolean, or a literal string
inserted after the consonant. -/
inductive DageshChazaqPolicy where
  | flag (b : Bool)
  | mark (s : String)
deriving DecidableEq

/-- STRESS_MARKER location options from the Schema class. -/
inductive StressLocation where
  | beforeSyllable
  | afterSyllable
  | beforeVowel
  | afterVowel
deriving DecidableEq

/-- STRESS_MARKER exclude options from the Schema class. -/
inductive StressExclude where
  | never
  | single
  | final
deriving DecidableEq

/-- STRESS_MARKER configuration object from the Schema class. -/
structure StressMarkerConfig where
  location : StressLocation
  mark : String
  exclude : Option StressExclude
deriving DecidableEq

/-- FEATURE scope of an additional feature. -/
inductive FeatureKind where
  | cluster
  | syllable
  | word
deriving DecidableEq

/-- TRANSLITERATION of an additional feature: a literal string or a callback. -/
inductive FeatureReplacement where
  | lit (s : String)
  | callback (f : String → String)

/-- ADDITIONAL_FEATURES entry from the Schema class. -/
structure AdditionalFeature where
  FEATURE : FeatureKind
  HEBREW : String
  TRANSLITERATION : FeatureReplacement
  PASS_THROUGH : Option Bool

/-- The Schema class embedded from the source (src/schema.ts as bundled with
the tests): one transliteration string per letter and vowel point, optional
dagesh-variant digraphs, divine-name strings, punctuation, dagesh-chazaq
policy, optional stress marker, and syllabification flags. -/
structure Schema where
  VOCAL_SHEVA : String
  HATAF_SEGOL : String
  HATAF_PATAH : String
  HATAF_QAMATS : String
  HIRIQ : String
  TSERE : String
  SEGOL : String
  PATAH : String
  QAMATS : String
  HOLAM : String
  HOLAM_HASER : String
  QUBUTS : String
  DAGESH : String
  DAGESH_CHAZAQ : DageshChazaqPolicy
  MAQAF : String
  PASEQ : String
  SOF_PASUQ : String
  QAMATS_QATAN : String
  FURTIVE_PATAH : String
  HIRIQ_YOD : String
  TSERE_YOD : String
  SEGOL_YOD : String
  SHUREQ : String
  HOLAM_VAV : String
  QAMATS_HE : String
  SEGOL_HE : String
  TSERE_HE : String
  MS_SUFX : String
  ALEF : String
  BET : String
  BET_DAGESH : Option String
  GIMEL : String
  GIMEL_DAGESH : Option String
  DALET : String
  DALET_DAGESH : Option String
  HE : String
  VAV : String
  ZAYIN : String
  HET : String
  TET : String
  YOD : String
  FINAL_KAF : String
  KAF : String
  KAF_DAGESH : Option String
  LAMED : String
  FINAL_MEM : String
  MEM : String
  FINAL_NUN : String
  NUN : String
  SAMEKH : String
  AYIN : String
  FINAL_PE : String
  PE : String
  PE_DAGESH : Option String
  FINAL_TSADI : String
  TSADI : String
  QOF : String
  RESH : String
  SHIN : String
  SIN : String
  TAV : String
  TAV_DAGESH : Option String
  DIVINE_NAME : String
  DIVINE_NAME_ELOHIM : Option String
  SYLLABLE_SEPARATOR : Option String
  ADDITIONAL_FEATURES : Option (List AdditionalFeature)
  STRESS_MARKER : Option StressMarkerConfig
  longVowels : Option Bool
  qametsQatan : Option Bool
  shevaAfterMeteg : Option Bool
  sqnmlvy : Option Bool
  wawShureq : Option Bool
  article : Option Bool
  allowNoNiqqud : Option Bool
  strict : Option Bool
  holemHaser : Option String

/-- A Partial Schema argument: every Schema field may be absent.  Fields that
are already optional in Schema keep their type, since supplying undefined for
them is the same as leaving them out. -/
structure PartialSchema where
  VOCAL_SHEVA : Option String := none
  HATAF_SEGOL : Option String := none
  HATAF_PATAH : Option String := none
  HATAF_QAMATS : Option String := none
  HIRIQ : Option String := none
  TSERE : Option String := none
  SEGOL : Option String := none
  PATAH : Option String := none
  QAMATS : Option String := none
  HOLAM : Option String := none
  HOLAM_HASER : Option String := none
  QUBUTS : Option String := none
  DAGESH : Option String := none
  DAGESH_CHAZAQ : Option DageshChazaqPolicy := none
  MAQAF : Option String := none
  PASEQ : Option String := none
  SOF_PASUQ : Option String := none
  QAMATS_QATAN : Option String := none
  FURTIVE_PATAH : Option String := none
  HIRIQ_YOD : Option String := none
  TSERE_YOD : Option String := none
  SEGOL_YOD : Option String := none
  SHUREQ : Option String := none
  HOLAM_VAV : Option String := none
  QAMATS_HE : Option String := none
  SEGOL_HE : Option String := none
  TSERE_HE : Option String := none
  MS_SUFX : Option String := none
  ALEF : Option String := none
  BET : Option String := none
  BET_DAGESH : Option String := none
  GIMEL : Option String := none
  GIMEL_DAGESH : Option String := none
  DALET : Option String := none
  DALET_DAGESH : Option String := none
  HE : Option String := none
  VAV : Option String := none
  ZAYIN : Option String := none
  HET : Option String := none
  TET : Option String := none
  YOD : Option String := none
  FINAL_KAF : Option String := none
  KAF : Option String := none
  KAF_DAGESH : Option String := none
  LAMED : Option String := none
  FINAL_MEM : Option String := none
  MEM : Option String := none
  FINAL_NUN : Option String := none
  NUN : Option String := none
  SAMEKH : Option String := none
  AYIN : Option String := none
  FINAL_PE : Option String := none
  PE : Option String := none
  PE_DAGESH : Option String := none
  FINAL_TSADI : Option String := none
  TSADI : Option String := none
  QOF : Option String := none
  RESH : Option String := none
  SHIN : Option String := none
  SIN : Option String := none
  TAV : Option String := none
  TAV_DAGESH : Option String := none
  DIVINE_NAME : Option String := none
  DIVINE_NAME_ELOHIM : Option String := none
  SYLLABLE_SEPARATOR : Option String := none
  ADDITIONAL_FEATURES : Option (List AdditionalFeature) := none
  STRESS_MARKER : Option StressMarkerConfig := none
  longVowels : Option Bool := none
  qametsQatan : Option Bool := none
  shevaAfterMeteg : Option Bool := none
  sqnmlvy : Option Bool := none
  wawShureq : Option Bool := none
  article : Option Bool := none
  allowNoNiqqud : Option Bool := none
  strict : Option Bool := none
  holemHaser : Option String := none

/-- JavaScript disjunction on an optional string: the default is taken when
the value is absent or is the empty (falsy) string.  Embeds the one field of
the SBL constructor merged with the or-operator instead of nullish
coalescing. -/
def jsOrString (o : Option String) (d : String) : String :=
  match o with
  | some s => if s = "" then d else s
  | none => d

/-- The SBL constructor embedded from the source: each field of the partial
argument is merged onto the SBL academic default by nullish coalescing,
except holemHaser, merged with the or-operator. -/
def SBL (p : PartialSchema) : Schema where
  VOCAL_SHEVA := p.VOCAL_SHEVA.getD "ǝ"
  HATAF_SEGOL := p.HATAF_SEGOL.getD "ĕ"
  HATAF_PATAH := p.HATAF_PATAH.getD "ă"
  HATAF_QAMATS := p.HATAF_QAMATS.getD "ŏ"
  HIRIQ := p.HIRIQ.getD "i"
  TSERE := p.TSERE.getD "ē"
  SEGOL := p.SEGOL.getD "e"
  PATAH := p.PATAH.getD "a"
  QAMATS := p.QAMATS.getD "ā"
  HOLAM := p.HOLAM.getD "ō"
  HOLAM_HASER := p.HOLAM_HASER.getD "ō"
  QUBUTS := p.QUBUTS.getD "ū"
  DAGESH := p.DAGESH.getD ""
  DAGESH_CHAZAQ := p.DAGESH_CHAZAQ.getD (DageshChazaqPolicy.flag true)
  MAQAF := p.MAQAF.getD "-"
  PASEQ := p.PASEQ.getD ""
  SOF_PASUQ := p.SOF_PASUQ.getD ""
  QAMATS_QATAN := p.QAMATS_QATAN.getD "o"
  FURTIVE_PATAH := p.FURTIVE_PATAH.getD "a"
  HIRIQ_YOD := p.HIRIQ_YOD.getD "î"
  TSERE_YOD := p.TSERE_YOD.getD "ê"
  SEGOL_YOD := p.SEGOL_YOD.getD "ê"
  SHUREQ := p.SHUREQ.getD "û"
  HOLAM_VAV := p.HOLAM_VAV.getD "ô"
  QAMATS_HE := p.QAMATS_HE.getD "â"
  SEGOL_HE := p.SEGOL_HE.getD "ê"
  TSERE_HE := p.TSERE_HE.getD "ê"
  MS_SUFX := p.MS_SUFX.getD "āyw"
  ALEF := p.ALEF.getD "ʾ"
  BET := p.BET.getD "b"
  BET_DAGESH := p.BET_DAGESH
  GIMEL := p.GIMEL.getD "g"
  GIMEL_DAGESH := p.GIMEL_DAGESH
  DALET := p.DALET.getD "d"
  DALET_DAGESH := p.DALET_DAGESH
  HE := p.HE.getD "h"
  VAV := p.VAV.getD "w"
  ZAYIN := p.ZAYIN.getD "z"
  HET := p.HET.getD "ḥ"
  TET := p.TET.getD "ṭ"
  YOD := p.YOD.getD "y"
  FINAL_KAF := p.FINAL_KAF.getD "k"
  KAF := p.KAF.getD "k"
  KAF_DAGESH := p.KAF_DAGESH
  LAMED := p.LAMED.getD "l"
  FINAL_MEM := p.FINAL_MEM.getD "m"
  MEM := p.MEM.getD "m"
  FINAL_NUN := p.FINAL_NUN.getD "n"
  NUN := p.NUN.getD "n"
  SAMEKH := p.SAMEKH.getD "s"
  AYIN := p.AYIN.getD "ʿ"
  FINAL_PE := p.FINAL_PE.getD "p"
  PE := p.PE.getD "p"
  PE_DAGESH := p.PE_DAGESH
  FINAL_TSADI := p.FINAL_TSADI.getD "ṣ"
  TSADI := p.TSADI.getD "ṣ"
  QOF := p.QOF.getD "q"
  RESH := p.RESH.getD "r"
  SHIN := p.SHIN.getD "š"
  SIN := p.SIN.getD "ś"
  TAV := p.TAV.getD "t"
  TAV_DAGESH := p.TAV_DAGESH
  DIVINE_NAME := p.DIVINE_NAME.getD "yhwh"
  DIVINE_NAME_ELOHIM := p.DIVINE_NAME_ELOHIM
  SYLLABLE_SEPARATOR := p.SYLLABLE_SEPARATOR
  ADDITIONAL_FEATURES := p.ADDITIONAL_FEATURES
  STRESS_MARKER := p.STRESS_MARKER
  longVowels := some (p.longVowels.getD true)
  qametsQatan := some (p.qametsQatan.getD true)
  shevaAfterMeteg := some (p.shevaAfterMeteg.getD true)
  sqnmlvy := some (p.sqnmlvy.getD true)
  wawShureq := some (p.wawShureq.getD true)
  article := some (p.article.getD true)
  allowNoNiqqud := some (p.allowNoNiqqud.getD true)
  strict := some (p.strict.getD false)
  holemHaser := some (jsOrString p.holemHaser "remove")

/-- The empty Partial Schema: no field supplied. -/
def noOverride : PartialSchema := {}

/-- View a full Schema as a Partial Schema argument, every mandatory field
supplied. -/
def schemaAsOverride (s : Schema) : PartialSchema where
  VOCAL_SHEVA := some s.VOCAL_SHEVA
  HATAF_SEGOL := some s.HATAF_SEGOL
  HATAF_PATAH := some s.HATAF_PATAH
  HATAF_QAMATS := some s.HATAF_QAMATS
  HIRIQ := some s.HIRIQ
  TSERE := some s.TSERE
  SEGOL := some s.SEGOL
  PATAH := some s.PATAH
  QAMATS := some s.QAMATS
  HOLAM := some s.HOLAM
  HOLAM_HASER := some s.HOLAM_HASER
  QUBUTS := some s.QUBUTS
  DAGESH := some s.DAGESH
  DAGESH_CHAZAQ := some s.DAGESH_CHAZAQ
  MAQAF := some s.MAQAF
  PASEQ := some s.PASEQ
  SOF_PASUQ := some s.SOF_PASUQ
  QAMATS_QATAN := some s.QAMATS_QATAN
  FURTIVE_PATAH := some s.FURTIVE_PATAH
  HIRIQ_YOD := some s.HIRIQ_YOD
  TSERE_YOD := some s.TSERE_YOD
  SEGOL_YOD := some s.SEGOL_YOD
  SHUREQ := some s.SHUREQ
  HOLAM_VAV := some s.HOLAM_VAV
  QAMATS_HE := some s.QAMATS_HE
  SEGOL_HE := some s.SEGOL_HE
  TSERE_HE := some s.TSERE_HE
  MS_SUFX := some s.MS_SUFX
  ALEF := some s.ALEF
  BET := some s.BET
  BET_DAGESH := s.BET_DAGESH
  GIMEL := some s.GIMEL
  GIMEL_DAGESH := s.GIMEL_DAGESH
  DALET := some s.DALET
  DALET_DAGESH := s.DALET_DAGESH
  HE := some s.HE
  VAV := some s.VAV
  ZAYIN := some s.ZAYIN
  HET := some s.HET
  TET := some s.TET
  YOD := some s.YOD
  FINAL_KAF := some s.FINAL_KAF
  KAF := some s.KAF
  KAF_DAGESH := s.KAF_DAGESH
  LAMED := some s.LAMED
  FINAL_MEM := some s.FINAL_MEM
  MEM := some s.MEM
  FINAL_NUN := some s.FINAL_NUN
  NUN := some s.NUN
  SAMEKH := some s.SAMEKH
  AYIN := some s.AYIN
  FINAL_PE := some s.FINAL_PE
  PE := some s.PE
  PE_DAGESH := s.PE_DAGESH
  FINAL_TSADI := some s.FINAL_TSADI
  TSADI := some s.TSADI
  QOF := some s.QOF
  RESH := some s.RESH
  SHIN := some s.SHIN
  SIN := some s.SIN
  TAV := some s.TAV
  TAV_DAGESH := s.TAV_DAGESH
  DIVINE_NAME := some s.DIVINE_NAME
  DIVINE_NAME_ELOHIM := s.DIVINE_NAME_ELOHIM
  SYLLABLE_SEPARATOR := s.SYLLABLE_SEPARATOR
  ADDITIONAL_FEATURES := s.ADDITIONAL_FEATURES
  STRESS_MARKER := s.STRESS_MARKER
  longVowels := s.longVowels
  qametsQatan := s.qametsQatan
  shevaAfterMeteg := s.shevaAfterMeteg
  sqnmlvy := s.sqnmlvy
  wawShureq := s.wawShureq
  article := s.article
  allowNoNiqqud := s.allowNoNiqqud
  strict := s.strict
  holemHaser := s.holemHaser

/-- Enumeration of the Schema fields, used to state field-generic merge
properties of the SBL constructor. -/
inductive SchemaKey where
  | VOCAL_SHEVA
  | HATAF_SEGOL
  | HATAF_PATAH
  | HATAF_QAMATS
  | HIRIQ
  | TSERE
  | SEGOL
  | PATAH
  | QAMATS
  | HOLAM
  | HOLAM_HASER
  | QUBUTS
  | DAGESH
  | DAGESH_CHAZAQ
  | MAQAF
  | PASEQ
  | SOF_PASUQ
  | QAMATS_QATAN
  | FURTIVE_PATAH
  | HIRIQ_YOD
  | TSERE_YOD
  | SEGOL_YOD
  | SHUREQ
  | HOLAM_VAV
  | QAMATS_HE
  | SEGOL_HE
  | TSERE_HE
  | MS_SUFX
  | ALEF
  | BET
  | BET_DAGESH
  | GIMEL
  | GIMEL_DAGESH
  | DALET
  | DALET_DAGESH
  | HE
  | VAV
  | ZAYIN
  | HET
  | TET
  | YOD
  | FINAL_KAF
  | KAF
  | KAF_DAGESH
  | LAMED
  | FINAL_MEM
  | MEM
  | FINAL_NUN
  | NUN
  | SAMEKH
  | AYIN
  | FINAL_PE
  | PE
  | PE_DAGESH
  | FINAL_TSADI
  | TSADI
  | QOF
  | RESH
  | SHIN
  | SIN
  | TAV
  | TAV_DAGESH
  | DIVINE_NAME
  | DIVINE_NAME_ELOHIM
  | SYLLABLE_SEPARATOR
  | ADDITIONAL_FEATURES
  | STRESS_MARKER
  | longVowels
  | qametsQatan
  | shevaAfterMeteg
  | sqnmlvy
  | wawShureq
  | article
  | allowNoNiqqud
  | strict
  | holemHaser
deriving DecidableEq

/-- The type of a supplied override value for each Schema field. -/
abbrev KeyTy : SchemaKey → Type
  | .VOCAL_SHEVA => String
  | .HATAF_SEGOL => String
  | .HATAF_PATAH => String
  | .HATAF_QAMATS => String
  | .HIRIQ => String
  | .TSERE => String
  | .SEGOL => String
  | .PATAH => String
  | .QAMATS => String
  | .HOLAM => String
  | .HOLAM_HASER => String
  | .QUBUTS => String
  | .DAGESH => String
  | .DAGESH_CHAZAQ => DageshChazaqPolicy
  | .MAQAF => String
  | .PASEQ => String
  | .SOF_PASUQ => String
  | .QAMATS_QATAN => String
  | .FURTIVE_PATAH => String
  | .HIRIQ_YOD => String
  | .TSERE_YOD => String
  | .SEGOL_YOD => String
  | .SHUREQ => String
  | .HOLAM_VAV => String
  | .QAMATS_HE => String
  | .SEGOL_HE => String
  | .TSERE_HE => String
  | .MS_SUFX => String
  | .ALEF => String
  | .BET => String
  | .BET_DAGESH => Option String
  | .GIMEL => String
  | .GIMEL_DAGESH => Option String
  | .DALET => String
  | .DALET_DAGESH => Option String
  | .HE => String
  | .VAV => String
  | .ZAYIN => String
  | .HET => String
  | .TET => String
  | .YOD => String
  | .FINAL_KAF => String
  | .KAF => String
  | .KAF_DAGESH => Option String
  | .LAMED => String
  | .FINAL_MEM => String
  | .MEM => String
  | .FINAL_NUN => String
  | .NUN => String
  | .SAMEKH => String
  | .AYIN => String
  | .FINAL_PE => String
  | .PE => String
  | .PE_DAGESH => Option String
  | .FINAL_TSADI => String
  | .TSADI => String
  | .QOF => String
  | .RESH => String
  | .SHIN => String
  | .SIN => String
  | .TAV => String
  | .TAV_DAGESH => Option String
  | .DIVINE_NAME => String
  | .DIVINE_NAME_ELOHIM => Option String
  | .SYLLABLE_SEPARATOR => Option String
  | .ADDITIONAL_FEATURES => Option (List AdditionalFeature)
  | .STRESS_MARKER => Option StressMarkerConfig
  | .longVowels => Bool
  | .qametsQatan => Bool
  | .shevaAfterMeteg => Bool
  | .sqnmlvy => Bool
  | .wawShureq => Bool
  | .article => Bool
  | .allowNoNiqqud => Bool
  | .strict => Bool
  | .holemHaser => String

/-- The type of a Schema field as stored on the constructed Schema. -/
abbrev SchVal : SchemaKey → Type
  | .VOCAL_SHEVA => String
  | .HATAF_SEGOL => String
  | .HATAF_PATAH => String
  | .HATAF_QAMATS => String
  | .HIRIQ => String
  | .TSERE => String
  | .SEGOL => String
  | .PATAH => String
  | .QAMATS => String
  | .HOLAM => String
  | .HOLAM_HASER => String
  | .QUBUTS => String
  | .DAGESH => String
  | .DAGESH_CHAZAQ => DageshChazaqPolicy
  | .MAQAF => String
  | .PASEQ => String
  | .SOF_PASUQ => String
  | .QAMATS_QATAN => String
  | .FURTIVE_PATAH => String
  | .HIRIQ_YOD => String
  | .TSERE_YOD => String
  | .SEGOL_YOD => String
  | .SHUREQ => String
  | .HOLAM_VAV => String
  | .QAMATS_HE => String
  | .SEGOL_HE => String
  | .TSERE_HE => String
  | .MS_SUFX => String
  | .ALEF => String
  | .BET => String
  | .BET_DAGESH => Option String
  | .GIMEL => String
  | .GIMEL_DAGESH => Option String
  | .DALET => String
  | .DALET_DAGESH => Option String
  | .HE => String
  | .VAV => String
  | .ZAYIN => String
  | .HET => String
  | .TET => String
  | .YOD => String
  | .FINAL_KAF => String
  | .KAF => String
  | .KAF_DAGESH => Option String
  | .LAMED => String
  | .FINAL_MEM => String
  | .MEM => String
  | .FINAL_NUN => String
  | .NUN => String
  | .SAMEKH => String
  | .AYIN => String
  | .FINAL_PE => String
  | .PE => String
  | .PE_DAGESH => Option String
  | .FINAL_TSADI => String
  | .TSADI => String
  | .QOF => String
  | .RESH => String
  | .SHIN => String
  | .SIN => String
  | .TAV => String
  | .TAV_DAGESH => Option String
  | .DIVINE_NAME => String
  | .DIVINE_NAME_ELOHIM => Option String
  | .SYLLABLE_SEPARATOR => Option String
  | .ADDITIONAL_FEATURES => Option (List AdditionalFeature)
  | .STRESS_MARKER => Option StressMarkerConfig
  | .longVowels => Option Bool
  | .qametsQatan => Option Bool
  | .shevaAfterMeteg => Option Bool
  | .sqnmlvy => Option Bool
  | .wawShureq => Option Bool
  | .article => Option Bool
  | .allowNoNiqqud => Option Bool
  | .strict => Option Bool
  | .holemHaser => Option String

/-- Set a single field of a Partial Schema to a supplied value. -/
def setP (k : SchemaKey) (v : KeyTy k) (p : PartialSchema) : PartialSchema :=
  match k, v with
  | .VOCAL_SHEVA, v => { p with VOCAL_SHEVA := some v }
  | .HATAF_SEGOL, v => { p with HATAF_SEGOL := some v }
  | .HATAF_PATAH, v => { p with HATAF_PATAH := some v }
  | .HATAF_QAMATS, v => { p with HATAF_QAMATS := some v }
  | .HIRIQ, v => { p with HIRIQ := some v }
  | .TSERE, v => { p with TSERE := some v }
  | .SEGOL, v => { p with SEGOL := some v }
  | .PATAH, v => { p with PATAH := some v }
  | .QAMATS, v => { p with QAMATS := some v }
  | .HOLAM, v => { p with HOLAM := some v }
  | .HOLAM_HASER, v => { p with HOLAM_HASER := some v }
  | .QUBUTS, v => { p with QUBUTS := some v }
  | .DAGESH, v => { p with DAGESH := some v }
  | .DAGESH_CHAZAQ, v => { p with DAGESH_CHAZAQ := some v }
  | .MAQAF, v => { p with MAQAF := some v }
  | .PASEQ, v => { p with PASEQ := some v }
  | .SOF_PASUQ, v => { p with SOF_PASUQ := some v }
  | .QAMATS_QATAN, v => { p with QAMATS_QATAN := some v }
  | .FURTIVE_PATAH, v => { p with FURTIVE_PATAH := some v }
  | .HIRIQ_YOD, v => { p with HIRIQ_YOD := some v }
  | .TSERE_YOD, v => { p with TSERE_YOD := some v }
  | .SEGOL_YOD, v => { p with SEGOL_YOD := some v }
  | .SHUREQ, v => { p with SHUREQ := some v }
  | .HOLAM_VAV, v => { p with HOLAM_VAV := some v }
  | .QAMATS_HE, v => { p with QAMATS_HE := some v }
  | .SEGOL_HE, v => { p with SEGOL_HE := some v }
  | .TSERE_HE, v => { p with TSERE_HE := some v }
  | .MS_SUFX, v => { p with MS_SUFX := some v }
  | .ALEF, v => { p with ALEF := some v }
  | .BET, v => { p with BET := some v }
  | .BET_DAGESH, v => { p with BET_DAGESH := v }
  | .GIMEL, v => { p with GIMEL := some v }
  | .GIMEL_DAGESH, v => { p with GIMEL_DAGESH := v }
  | .DALET, v => { p with DALET := some v }
  | .DALET_DAGESH, v => { p with DALET_DAGESH := v }
  | .HE, v => { p with HE := some v }
  | .VAV, v => { p with VAV := some v }
  | .ZAYIN, v => { p with ZAYIN := some v }
  | .HET, v => { p with HET := some v }
  | .TET, v => { p with TET := some v }
  | .YOD, v => { p with YOD := some v }
  | .FINAL_KAF, v => { p with FINAL_KAF := some v }
  | .KAF, v => { p with KAF := some v }
  | .KAF_DAGESH, v => { p with KAF_DAGESH := v }
  | .LAMED, v => { p with LAMED := some v }
  | .FINAL_MEM, v => { p with FINAL_MEM := some v }
  | .MEM, v => { p with MEM := some v }
  | .FINAL_NUN, v => { p with FINAL_NUN := some v }
  | .NUN, v => { p with NUN := some v }
  | .SAMEKH, v => { p with SAMEKH := some v }
  | .AYIN, v => { p with AYIN := some v }
  | .FINAL_PE, v => { p with FINAL_PE := some v }
  | .PE, v => { p with PE := some v }
  | .PE_DAGESH, v => { p with PE_DAGESH := v }
  | .FINAL_TSADI, v => { p with FINAL_TSADI := some v }
  | .TSADI, v => { p with TSADI := some v }
  | .QOF, v => { p with QOF := some v }
  | .RESH, v => { p with RESH := some v }
  | .SHIN, v => { p with SHIN := some v }
  | .SIN, v => { p with SIN := some v }
  | .TAV, v => { p with TAV := some v }
  | .TAV_DAGESH, v => { p with TAV_DAGESH := v }
  | .DIVINE_NAME, v => { p with DIVINE_NAME := some v }
  | .DIVINE_NAME_ELOHIM, v => { p with DIVINE_NAME_ELOHIM := v }
  | .SYLLABLE_SEPARATOR, v => { p with SYLLABLE_SEPARATOR := v }
  | .ADDITIONAL_FEATURES, v => { p with ADDITIONAL_FEATURES := v }
  | .STRESS_MARKER, v => { p with STRESS_MARKER := v }
  | .longVowels, v => { p with longVowels := some v }
  | .qametsQatan, v => { p with qametsQatan := some v }
  | .shevaAfterMeteg, v => { p with shevaAfterMeteg := some v }
  | .sqnmlvy, v => { p with sqnmlvy := some v }
  | .wawShureq, v => { p with wawShureq := some v }
  | .article, v => { p with article := some v }
  | .allowNoNiqqud, v => { p with allowNoNiqqud := some v }
  | .strict, v => { p with strict := some v }
  | .holemHaser, v => { p with holemHaser := some v }

/-- Set a single field of a full Schema to a supplied value. -/
def setS (k : SchemaKey) (v : KeyTy k) (s : Schema) : Schema :=
  match k, v with
  | .VOCAL_SHEVA, v => { s with VOCAL_SHEVA := v }
  | .HATAF_SEGOL, v => { s with HATAF_SEGOL := v }
  | .HATAF_PATAH, v => { s with HATAF_PATAH := v }
  | .HATAF_QAMATS, v => { s with HATAF_QAMATS := v }
  | .HIRIQ, v => { s with HIRIQ := v }
  | .TSERE, v => { s with TSERE := v }
  | .SEGOL, v => { s with SEGOL := v }
  | .PATAH, v => { s with PATAH := v }
  | .QAMATS, v => { s with QAMATS := v }
  | .HOLAM, v => { s with HOLAM := v }
  | .HOLAM_HASER, v => { s with HOLAM_HASER := v }
  | .QUBUTS, v => { s with QUBUTS := v }
  | .DAGESH, v => { s with DAGESH := v }
  | .DAGESH_CHAZAQ, v => { s with DAGESH_CHAZAQ := v }
  | .MAQAF, v => { s with MAQAF := v }
  | .PASEQ, v => { s with PASEQ := v }
  | .SOF_PASUQ, v => { s with SOF_PASUQ := v }
  | .QAMATS_QATAN, v => { s with QAMATS_QATAN := v }
  | .FURTIVE_PATAH, v => { s with FURTIVE_PATAH := v }
  | .HIRIQ_YOD, v => { s with HIRIQ_YOD := v }
  | .TSERE_YOD, v => { s with TSERE_YOD := v }
  | .SEGOL_YOD, v => { s with SEGOL_YOD := v }
  | .SHUREQ, v => { s with SHUREQ := v }
  | .HOLAM_VAV, v => { s with HOLAM_VAV := v }
  | .QAMATS_HE, v => { s with QAMATS_HE := v }
  | .SEGOL_HE, v => { s with SEGOL_HE := v }
  | .TSERE_HE, v => { s with TSERE_HE := v }
  | .MS_SUFX, v => { s with MS_SUFX := v }
  | .ALEF, v => { s with ALEF := v }
  | .BET, v => { s with BET := v }
  | .BET_DAGESH, v => { s with BET_DAGESH := v }
  | .GIMEL, v => { s with GIMEL := v }
  | .GIMEL_DAGESH, v => { s with GIMEL_DAGESH := v }
  | .DALET, v => { s with DALET := v }
  | .DALET_DAGESH, v => { s with DALET_DAGESH := v }
  | .HE, v => { s with HE := v }
  | .VAV, v => { s with VAV := v }
  | .ZAYIN, v => { s with ZAYIN := v }
  | .HET, v => { s with HET := v }
  | .TET, v => { s with TET := v }
  | .YOD, v => { s with YOD := v }
  | .FINAL_KAF, v => { s with FINAL_KAF := v }
  | .KAF, v => { s with KAF := v }
  | .KAF_DAGESH, v => { s with KAF_DAGESH := v }
  | .LAMED, v => { s with LAMED := v }
  | .FINAL_MEM, v => { s with FINAL_MEM := v }
  | .MEM, v => { s with MEM := v }
  | .FINAL_NUN, v => { s with FINAL_NUN := v }
  | .NUN, v => { s with NUN := v }
  | .SAMEKH, v => { s with SAMEKH := v }
  | .AYIN, v => { s with AYIN := v }
  | .FINAL_PE, v => { s with FINAL_PE := v }
  | .PE, v => { s with PE := v }
  | .PE_DAGESH, v => { s with PE_DAGESH := v }
  | .FINAL_TSADI, v => { s with FINAL_TSADI := v }
  | .TSADI, v => { s with TSADI := v }
  | .QOF, v => { s with QOF := v }
  | .RESH, v => { s with RESH := v }
  | .SHIN, v => { s with SHIN := v }
  | .SIN, v => { s with SIN := v }
  | .TAV, v => { s with TAV := v }
  | .TAV_DAGESH, v => { s with TAV_DAGESH := v }
  | .DIVINE_NAME, v => { s with DIVINE_NAME := v }
  | .DIVINE_NAME_ELOHIM, v => { s with DIVINE_NAME_ELOHIM := v }
  | .SYLLABLE_SEPARATOR, v => { s with SYLLABLE_SEPARATOR := v }
  | .ADDITIONAL_FEATURES, v => { s with ADDITIONAL_FEATURES := v }
  | .STRESS_MARKER, v => { s with STRESS_MARKER := v }
  | .longVowels, v => { s with longVowels := some v }
  | .qametsQatan, v => { s with qametsQatan := some v }
  | .shevaAfterMeteg, v => { s with shevaAfterMeteg := some v }
  | .sqnmlvy, v => { s with sqnmlvy := some v }
  | .wawShureq, v => { s with wawShureq := some v }
  | .article, v => { s with article := some v }
  | .allowNoNiqqud, v => { s with allowNoNiqqud := some v }
  | .strict, v => { s with strict := some v }
  | .holemHaser, v => { s with holemHaser := some v }

/-- Read a single field of a full Schema. -/
def getF (k : SchemaKey) (s : Schema) : SchVal k :=
  match k with
  | .VOCAL_SHEVA => s.VOCAL_SHEVA
  | .HATAF_SEGOL => s.HATAF_SEGOL
  | .HATAF_PATAH => s.HATAF_PATAH
  | .HATAF_QAMATS => s.HATAF_QAMATS
  | .HIRIQ => s.HIRIQ
  | .TSERE => s.TSERE
  | .SEGOL => s.SEGOL
  | .PATAH => s.PATAH
  | .QAMATS => s.QAMATS
  | .HOLAM => s.HOLAM
  | .HOLAM_HASER => s.HOLAM_HASER
  | .QUBUTS => s.QUBUTS
  | .DAGESH => s.DAGESH
  | .DAGESH_CHAZAQ => s.DAGESH_CHAZAQ
  | .MAQAF => s.MAQAF
  | .PASEQ => s.PASEQ
  | .SOF_PASUQ => s.SOF_PASUQ
  | .QAMATS_QATAN => s.QAMATS_QATAN
  | .FURTIVE_PATAH => s.FURTIVE_PATAH
  | .HIRIQ_YOD => s.HIRIQ_YOD
  | .TSERE_YOD => s.TSERE_YOD
  | .SEGOL_YOD => s.SEGOL_YOD
  | .SHUREQ => s.SHUREQ
  | .HOLAM_VAV => s.HOLAM_VAV
  | .QAMATS_HE => s.QAMATS_HE
  | .SEGOL_HE => s.SEGOL_HE
  | .TSERE_HE => s.TSERE_HE
  | .MS_SUFX => s.MS_SUFX
  | .ALEF => s.ALEF
  | .BET => s.BET
  | .BET_DAGESH => s.BET_DAGESH
  | .GIMEL => s.GIMEL
  | .GIMEL_DAGESH => s.GIMEL_DAGESH
  | .DALET => s.DALET
  | .DALET_DAGESH => s.DALET_DAGESH
  | .HE => s.HE
  | .VAV => s.VAV
  | .ZAYIN => s.ZAYIN
  | .HET => s.HET
  | .TET => s.TET
  | .YOD => s.YOD
  | .FINAL_KAF => s.FINAL_KAF
  | .KAF => s.KAF
  | .KAF_DAGESH => s.KAF_DAGESH
  | .LAMED => s.LAMED
  | .FINAL_MEM => s.FINAL_MEM
  | .MEM => s.MEM
  | .FINAL_NUN => s.FINAL_NUN
  | .NUN => s.NUN
  | .SAMEKH => s.SAMEKH
  | .AYIN => s.AYIN
  | .FINAL_PE => s.FINAL_PE
  | .PE => s.PE
  | .PE_DAGESH => s.PE_DAGESH
  | .FINAL_TSADI => s.FINAL_TSADI
  | .TSADI => s.TSADI
  | .QOF => s.QOF
  | .RESH => s.RESH
  | .SHIN => s.SHIN
  | .SIN => s.SIN
  | .TAV => s.TAV
  | .TAV_DAGESH => s.TAV_DAGESH
  | .DIVINE_NAME => s.DIVINE_NAME
  | .DIVINE_NAME_ELOHIM => s.DIVINE_NAME_ELOHIM
  | .SYLLABLE_SEPARATOR => s.SYLLABLE_SEPARATOR
  | .ADDITIONAL_FEATURES => s.ADDITIONAL_FEATURES
  | .STRESS_MARKER => s.STRESS_MARKER
  | .longVowels => s.longVowels
  | .qametsQatan => s.qametsQatan
  | .shevaAfterMeteg => s.shevaAfterMeteg
  | .sqnmlvy => s.sqnmlvy
  | .wawShureq => s.wawShureq
  | .article => s.article
  | .allowNoNiqqud => s.allowNoNiqqud
  | .strict => s.strict
  | .holemHaser => s.holemHaser

/-- How a supplied value is stored on the constructed Schema: optional flag
fields are wrapped in some, every other field is stored as supplied. -/
def inj (k : SchemaKey) (v : KeyTy k) : SchVal k :=
  match k, v with
  | .VOCAL_SHEVA, v => v
  | .HATAF_SEGOL, v => v
  | .HATAF_PATAH, v => v
  | .HATAF_QAMATS, v => v
  | .HIRIQ, v => v
  | .TSERE, v => v
  | .SEGOL, v => v
  | .PATAH, v => v
  | .QAMATS, v => v
  | .HOLAM, v => v
  | .HOLAM_HASER, v => v
  | .QUBUTS, v => v
  | .DAGESH, v => v
  | .DAGESH_CHAZAQ, v => v
  | .MAQAF, v => v
  | .PASEQ, v => v
  | .SOF_PASUQ, v => v
  | .QAMATS_QATAN, v => v
  | .FURTIVE_PATAH, v => v
  | .HIRIQ_YOD, v => v
  | .TSERE_YOD, v => v
  | .SEGOL_YOD, v => v
  | .SHUREQ, v => v
  | .HOLAM_VAV, v => v
  | .QAMATS_HE, v => v
  | .SEGOL_HE, v => v
  | .TSERE_HE, v => v
  | .MS_SUFX, v => v
  | .ALEF, v => v
  | .BET, v => v
  | .BET_DAGESH, v => v
  | .GIMEL, v => v
  | .GIMEL_DAGESH, v => v
  | .DALET, v => v
  | .DALET_DAGESH, v => v
  | .HE, v => v
  | .VAV, v => v
  | .ZAYIN, v => v
  | .HET, v => v
  | .TET, v => v
  | .YOD, v => v
  | .FINAL_KAF, v => v
  | .KAF, v => v
  | .KAF_DAGESH, v => v
  | .LAMED, v => v
  | .FINAL_MEM, v => v
  | .MEM, v => v
  | .FINAL_NUN, v => v
  | .NUN, v => v
  | .SAMEKH, v => v
  | .AYIN, v => v
  | .FINAL_PE, v => v
  | .PE, v => v
  | .PE_DAGESH, v => v
  | .FINAL_TSADI, v => v
  | .TSADI, v => v
  | .QOF, v => v
  | .RESH, v => v
  | .SHIN, v => v
  | .SIN, v => v
  | .TAV, v => v
  | .TAV_DAGESH, v => v
  | .DIVINE_NAME, v => v
  | .DIVINE_NAME_ELOHIM, v => v
  | .SYLLABLE_SEPARATOR, v => v
  | .ADDITIONAL_FEATURES, v => v
  | .STRESS_MARKER, v => v
  | .longVowels, v => some v
  | .qametsQatan, v => some v
  | .shevaAfterMeteg, v => some v
  | .sqnmlvy, v => some v
  | .wawShureq, v => some v
  | .article, v => some v
  | .allowNoNiqqud, v => some v
  | .strict, v => some v
  | .holemHaser, v => some v

/-- Modelled from the spec: vowel tokens carried by a cluster — a plain vowel
point, or one of the matres lectionis digraph combinations, or a furtive
patah (the transliterate implementation is not in the source tree). -/
inductive VowelTok where
  | pt (c : Char)
  | hiriqYod
  | tsereYod
  | segolYod
  | shureq
  | holamVav
  | qamatsHe
  | segolHe
  | tsereHe
  | msSufx
  | furtivePatah
deriving DecidableEq

/-- Modelled from the spec: an atomic cluster of the Segmenter contract — one
base consonant with optional sin dot, dagesh, dagesh-chazaq flag and vowel. -/
structure Cluster where
  consonant : Char
  sinDot : Bool
  hasDagesh : Bool
  isChazaq : Bool
  vowel : Option VowelTok
deriving DecidableEq

/-- Modelled from the spec: a syllable of the Segmenter contract. -/
structure Syllable where
  clusters : List Cluster
  isAccented : Bool
  isClosed : Bool
deriving DecidableEq

/-- Modelled from the spec: a word of the Segmenter contract, exposing its
original text span and its syllables. -/
structure Word where
  original : String
  syllables : List Syllable
deriving DecidableEq

/-- Modelled from the spec: the default per-letter consonant mapping; an
unmapped code point is emitted unchanged. -/
def consMap (s : Schema) (c : Char) (sin : Bool) : String :=
  match c.toNat with
  | 0x05D0 => s.ALEF
  | 0x05D1 => s.BET
  | 0x05D2 => s.GIMEL
  | 0x05D3 => s.DALET
  | 0x05D4 => s.HE
  | 0x05D5 => s.VAV
  | 0x05D6 => s.ZAYIN
  | 0x05D7 => s.HET
  | 0x05D8 => s.TET
  | 0x05D9 => s.YOD
  | 0x05DA => s.FINAL_KAF
  | 0x05DB => s.KAF
  | 0x05DC => s.LAMED
  | 0x05DD => s.FINAL_MEM
  | 0x05DE => s.MEM
  | 0x05DF => s.FINAL_NUN
  | 0x05E0 => s.NUN
  | 0x05E1 => s.SAMEKH
  | 0x05E2 => s.AYIN
  | 0x05E3 => s.FINAL_PE
  | 0x05E4 => s.PE
  | 0x05E5 => s.FINAL_TSADI
  | 0x05E6 => s.TSADI
  | 0x05E7 => s.QOF
  | 0x05E8 => s.RESH
  | 0x05E9 => if sin then s.SIN else s.SHIN
  | 0x05EA => s.TAV
  | _ => String.singleton c

/-- Modelled from the spec: the optional dagesh-variant digraph mapping for
the six BeGaDKePhaT letters. -/
def dageshVariant (s : Schema) (c : Char) : Option String :=
  match c.toNat with
  | 0x05D1 => s.BET_DAGESH
  | 0x05D2 => s.GIMEL_DAGESH
  | 0x05D3 => s.DALET_DAGESH
  | 0x05DB => s.KAF_DAGESH
  | 0x05E4 => s.PE_DAGESH
  | 0x05EA => s.TAV_DAGESH
  | _ => none

/-- Modelled from the spec: the single rendering of a cluster's consonant —
the dagesh-variant mapping when a dagesh is present and a variant is
configured, otherwise the plain mapping. -/
def baseCons (s : Schema) (cl : Cluster) : String :=
  let plain := consMap s cl.consonant cl.sinDot
  if cl.hasDagesh then (dageshVariant s cl.consonant).getD plain else plain

/-- Modelled from the spec: consonant rendering with the dagesh-chazaq
policy applied — a true policy doubles the consonant output, a false policy
leaves it single, a string policy is inserted once after it (the repository's
dagesh-chazaq tests pin this behaviour). -/
def mapConsonant (s : Schema) (cl : Cluster) : String :=
  let b := baseCons s cl
  if cl.isChazaq then
    match s.DAGESH_CHAZAQ with
    | DageshChazaqPolicy.flag true => b ++ b
    | DageshChazaqPolicy.flag false => b
    | DageshChazaqPolicy.mark m => b ++ m
  else b

/-- Modelled from the spec: the vowel-point mapping, including qamats-qatan
disambiguation in a closed unaccented syllable; an unmapped code point is
emitted unchanged. -/
def mapVowelPt (s : Schema) (closed accented : Bool) (c : Char) : String :=
  match c.toNat with
  | 0x05B0 => s.VOCAL_SHEVA
  | 0x05B1 => s.HATAF_SEGOL
  | 0x05B2 => s.HATAF_PATAH
  | 0x05B3 => s.HATAF_QAMATS
  | 0x05B4 => s.HIRIQ
  | 0x05B5 => s.TSERE
  | 0x05B6 => s.SEGOL
  | 0x05B7 => s.PATAH
  | 0x05B8 =>
    if closed && !accented && s.qametsQatan.getD true then s.QAMATS_QATAN else s.QAMATS
  | 0x05B9 => s.HOLAM
  | 0x05BA => s.HOLAM_HASER
  | 0x05BB => s.QUBUTS
  | 0x05C7 => s.QAMATS_QATAN
  | _ => String.singleton c

/-- Modelled from the spec: the vowel-token mapping. -/
def mapVowel (s : Schema) (closed accented : Bool) : VowelTok → String
  | VowelTok.pt c => mapVowelPt s closed accented c
  | VowelTok.hiriqYod => s.HIRIQ_YOD
  | VowelTok.tsereYod => s.TSERE_YOD
  | VowelTok.segolYod => s.SEGOL_YOD
  | VowelTok.shureq => s.SHUREQ
  | VowelTok.holamVav => s.HOLAM_VAV
  | VowelTok.qamatsHe => s.QAMATS_HE
  | VowelTok.segolHe => s.SEGOL_HE
  | VowelTok.tsereHe => s.TSERE_HE
  | VowelTok.msSufx => s.MS_SUFX
  | VowelTok.furtivePatah => s.FURTIVE_PATAH

/-- Modelled from the spec: full rendering of one cluster, consonant then
vowel. -/
def renderCluster (s : Schema) (closed accented : Bool) (cl : Cluster) : String :=
  mapConsonant s cl ++
    (match cl.vowel with
     | some v => mapVowel s closed accented v
     | none => "")

/-- Modelled from the spec: a syllable's rendered text split at its vowel —
the part up to and including the vowel-bearing consonant, the rendered vowel
substring, and the rest. -/
def sylParts (s : Schema) (closed accented : Bool) : List Cluster → String × String × String
  | [] => ("", "", "")
  | cl :: rest =>
    match cl.vowel with
    | some v =>
      (mapConsonant s cl, mapVowel s closed accented v,
        String.join (rest.map (renderCluster s closed accented)))
    | none =>
      let t := sylParts s closed accented rest
      (mapConsonant s cl ++ t.1, t.2.1, t.2.2)

/-- Modelled from the spec: the onset/vowel/rest decomposition of a rendered
syllable. -/
def renderSylParts (s : Schema) (syl : Syllable) : String × String × String :=
  sylParts s syl.isClosed syl.isAccented syl.clusters

/-- Concatenation of the three parts of a rendered syllable. -/
def flat3 (t : String × String × String) : String := t.1 ++ t.2.1 ++ t.2.2

/-- Modelled from the spec: the Stress Marker insertion, with the vowel
locations pinned by the repository's stress-marks tests — before-vowel puts
the mark immediately before the first character of the vowel substring,
after-vowel immediately after its last character. -/
def applyStress (loc : StressLocation) (mark : String) (t : String × String × String) :
    String :=
  match loc with
  | StressLocation.beforeSyllable => mark ++ t.1 ++ t.2.1 ++ t.2.2
  | StressLocation.afterSyllable => t.1 ++ t.2.1 ++ t.2.2 ++ mark
  | StressLocation.beforeVowel => t.1 ++ mark ++ t.2.1 ++ t.2.2
  | StressLocation.afterVowel => t.1 ++ t.2.1 ++ mark ++ t.2.2

/-- Index of the accented syllable in a word. -/
def accentIdx (w : Word) : Nat := w.syllables.findIdx (fun syl => syl.isAccented)

/-- Modelled from the spec: whether the stress-marker exclude option
suppresses the mark on this word. -/
def suppressStress (sm : StressMarkerConfig) (w : Word) : Bool :=
  match sm.exclude.getD StressExclude.never with
  | StressExclude.never => false
  | StressExclude.single => w.syllables.length == 1
  | StressExclude.final => accentIdx w == w.syllables.length - 1

/-- Join a list of rendered syllables with the syllable separator. -/
def joinSep (sep : String) : List String → String
  | [] => ""
  | [x] => x
  | x :: rest => x ++ sep ++ joinSep sep rest

/-- Modelled from the spec: word rendering through the character mapper and
the stress marker, syllables joined with the configured separator. -/
def renderWordCore (s : Schema) (w : Word) : String :=
  joinSep (s.SYLLABLE_SEPARATOR.getD "")
    (w.syllables.map (fun syl =>
      match s.STRESS_MARKER with
      | some sm =>
        if syl.isAccented && !(suppressStress sm w) then
          applyStress sm.location sm.mark (renderSylParts s syl)
        else flat3 (renderSylParts s syl)
      | none => flat3 (renderSylParts s syl)))

/-- Hebrew base letters U+05D0..U+05EA. -/
def isHebrewLetter (c : Char) : Bool := 0x05D0 ≤ c.toNat && c.toNat ≤ 0x05EA

/-- The consonant skeleton of the divine name, yod-he-vav-he. -/
def divineSkeleton : List Char := ['י', 'ה', 'ו', 'ה']

/-- Modelled from the spec: a word is the divine name when its consonant
skeleton is exactly yod-he-vav-he. -/
def isDivineName (t : String) : Bool := t.data.filter isHebrewLetter == divineSkeleton

/-- A word's text without accents, meteg and sof pasuq, used to match the
documented pointed forms of the divine name. -/
def stripForDivine (t : String) : List Char :=
  t.data.filter (fun c => !(isTaam c || isMeteg c || isSofPasuq c))

/-- The four documented vocalized forms of the divine name read as ʾelōhîm. -/
def elohimForm1 : List Char := ['י', 'ֱ', 'ה', 'ֹ', 'ו', 'ִ', 'ה']

/-- Second documented ʾelōhîm form: hataf segol without holam. -/
def elohimForm2 : List Char := ['י', 'ֱ', 'ה', 'ו', 'ִ', 'ה']

/-- Third documented ʾelōhîm form: sheva with holam. -/
def elohimForm3 : List Char := ['י', 'ְ', 'ה', 'ֹ', 'ו', 'ִ', 'ה']

/-- Fourth documented ʾelōhîm form: sheva without holam. -/
def elohimForm4 : List Char := ['י', 'ְ', 'ה', 'ו', 'ִ', 'ה']

/-- Modelled from the spec: whether a word matches one of the documented
ʾelōhîm-vocalized forms of the divine name. -/
def isElohimForm (t : String) : Bool :=
  stripForDivine t == elohimForm1 || stripForDivine t == elohimForm2 ||
    stripForDivine t == elohimForm3 || stripForDivine t == elohimForm4

/-- Modelled from the spec: per-word mapping — a divine-name word is replaced
wholesale by the configured divine-name string, bypassing per-letter mapping,
the ʾelōhîm-vocalized forms using DIVINE_NAME_ELOHIM with DIVINE_NAME as the
fallback; any other word goes through the character mapper and stress
marker. -/
def renderWord (s : Schema) (w : Word) : String :=
  if isDivineName w.original then
    if isElohimForm w.original then s.DIVINE_NAME_ELOHIM.getD s.DIVINE_NAME
    else s.DIVINE_NAME
  else renderWordCore s w

/-- Modelled from the spec: the public transliterate operation on
pre-segmented input; the schema argument is merged onto the SBL default by
the SBL constructor, and words are joined with single spaces. -/
def transliterate (input : List Word) (p : PartialSchema) : String :=
  joinSep " " (input.map (renderWord (SBL p)))

set_option maxHeartbeats 2000000 in
theorem SBL_merge_locality (k : SchemaKey) (v : KeyTy k) :
    SBL (setP k v noOverride) = SBL (schemaAsOverride (setS k v (SBL noOverride))) := by
  cases k <;> rfl

/-- Claim C1: transliterating with a single-field override equals
transliterating with the full default SBL schema in which only that field is
replaced by the supplied value — the merge is a shallow field-by-field
override, so in particular a supplied STRESS_MARKER object replaces the
default stress-marker configuration wholesale. -/
theorem transliterate_override_locality (x : List Word) (k : SchemaKey) (v : KeyTy k) :
    transliterate x (setP k v noOverride)
      = transliterate x (schemaAsOverride (setS k v (SBL noOverride))) := by
  unfold transliterate
  rw [SBL_merge_locality k v]

/-- Claim C10: the SBL constructor preserves every supplied field value,
falsy values included, except holemHaser: a supplied holemHaser is kept only
when it is a non-empty string and falls back to remove when it is the falsy
empty string, because that single field is merged with the or-operator. -/
theorem SBL_preserves_supplied (p : PartialSchema) :
    (∀ (k : SchemaKey) (v : KeyTy k), k ≠ SchemaKey.holemHaser →
        getF k (SBL (setP k v p)) = inj k v)
    ∧ ∀ w : String,
        (SBL (setP SchemaKey.holemHaser w p)).holemHaser
          = some (if w = "" then "remove" else w) := by
  constructor
  · intro k v hk
    cases k
    case holemHaser => exact absurd rfl hk
    all_goals rfl
  · intro w
    rfl

/-- Closed instance of SBL_preserves_supplied: a supplied false DAGESH_CHAZAQ
stays false, and a supplied falsy holemHaser is replaced by remove. -/
theorem SBL_preserves_supplied_witness :
    getF SchemaKey.DAGESH_CHAZAQ
        (SBL (setP SchemaKey.DAGESH_CHAZAQ (DageshChazaqPolicy.flag false) noOverride))
      = DageshChazaqPolicy.flag false
    ∧ (SBL (setP SchemaKey.holemHaser "" noOverride)).holemHaser = some "remove" := by
  constructor
  · exact (SBL_preserves_supplied noOverride).1 SchemaKey.DAGESH_CHAZAQ
      (DageshChazaqPolicy.flag false) (by intro h; cases h)
  · have h := (SBL_preserves_supplied noOverride).2 ""
    rw [h]
    simp

/-- Concrete segmented shabbat word: shin-patah, then
bet-dagesh-chazaq-qamats with final tav, the accent on the final syllable. -/
def shabbatWord : Word :=
  ⟨"שַׁבָּת",
    [⟨[⟨'ש', false, false, false, some (VowelTok.pt 'ַ')⟩], false, false⟩,
     ⟨[⟨'ב', false, true, true, some (VowelTok.pt 'ָ')⟩,
       ⟨'ת', false, false, false, none⟩], true, true⟩]⟩

/-- Claim C3: for a cluster carrying a dagesh chazaq the consonant is
rendered doubled when the policy is true, exactly once (plain or
dagesh-variant mapping, never both) when false, and exactly once with the
literal string inserted after it when the policy is a string; on the shabbat
word the policies give the documented outputs. -/
theorem dagesh_chazaq_policy (s : Schema) (cl : Cluster) (h : cl.isChazaq = true) :
    (s.DAGESH_CHAZAQ = DageshChazaqPolicy.flag true →
        mapConsonant s cl = baseCons s cl ++ baseCons s cl)
    ∧ (s.DAGESH_CHAZAQ = DageshChazaqPolicy.flag false →
        mapConsonant s cl = baseCons s cl)
    ∧ (∀ m : String, s.DAGESH_CHAZAQ = DageshChazaqPolicy.mark m →
        mapConsonant s cl = baseCons s cl ++ m)
    ∧ transliterate [shabbatWord] { DAGESH_CHAZAQ := some (DageshChazaqPolicy.flag false) }
        = "šabāt"
    ∧ transliterate [shabbatWord] { DAGESH_CHAZAQ := some (DageshChazaqPolicy.flag true) }
        = "šabbāt" := by
  refine ⟨fun hp => ?_, fun hp => ?_, fun m hp => ?_, ?_, ?_⟩
  · simp [mapConsonant, h, hp]
  · simp [mapConsonant, h, hp]
  · simp [mapConsonant, h, hp]
  · rfl
  · rfl

/-- The dagesh-chazaq cluster of the shabbat word. -/
def shabbatBet : Cluster := ⟨'ב', false, true, true, some (VowelTok.pt 'ָ')⟩

/-- Closed instance of dagesh_chazaq_policy: under the SBL default the
chazaq bet doubles, and under a string policy the mark is inserted once. -/
theorem dagesh_chazaq_policy_witness :
    mapConsonant (SBL noOverride) shabbatBet = "bb"
    ∧ mapConsonant (SBL { DAGESH_CHAZAQ := some (DageshChazaqPolicy.mark "-") })
        shabbatBet = "b-" := by
  constructor
  · have h := (dagesh_chazaq_policy (SBL noOverride) shabbatBet rfl).1 rfl
    rw [h]
    rfl
  · have h := ((dagesh_chazaq_policy
        (SBL { DAGESH_CHAZAQ := some (DageshChazaqPolicy.mark "-") })
        shabbatBet rfl).2.2.1) "-" rfl
    rw [h]
    rfl

/-- Word rendering with no stress mark applied to any syllable. -/
def renderWordPlain (s : Schema) (w : Word) : String :=
  joinSep (s.SYLLABLE_SEPARATOR.getD "")
    (w.syllables.map (fun syl => flat3 (renderSylParts s syl)))

/-- Claim C8: with exclude single the stress mark is suppressed exactly on
one-syllable words; with exclude final it is suppressed exactly when the
accented syllable is the last one, which in particular suppresses every
accented one-syllable word; and a suppressed word renders with no mark, as
if no stress marker were configured. -/
theorem stress_exclude_semantics (sm : StressMarkerConfig) (w : Word)
    (hacc : w.syllables.any (fun syl => syl.isAccented) = true) :
    (sm.exclude = some StressExclude.single →
        (suppressStress sm w = true ↔ w.syllables.length = 1))
    ∧ (sm.exclude = some StressExclude.final →
        (suppressStress sm w = true ↔ accentIdx w = w.syllables.length - 1))
    ∧ (sm.exclude = some StressExclude.final → w.syllables.length = 1 →
        suppressStress sm w = true)
    ∧ ∀ s : Schema, s.STRESS_MARKER = some sm → suppressStress sm w = true →
        isDivineName w.original = false → renderWord s w = renderWordPlain s w := by
  refine ⟨fun he => ?_, fun he => ?_, fun he h1 => ?_, fun s hs hsup hdiv => ?_⟩
  · simp [suppressStress, he]
  · simp [suppressStress, he]
  · simp only [suppressStress, he, Option.getD_some]
    have hlt : accentIdx w < w.syllables.length := by
      apply List.findIdx_lt_length_of_exists
      simpa using hacc
    rw [h1] at hlt
    simp only [beq_iff_eq, h1]
    omega
  · unfold renderWord renderWordCore renderWordPlain
    simp only [hdiv, Bool.false_eq_true, if_false]
    rw [hs]
    simp [hsup]

/-- Stress configuration that excludes one-syllable words. -/
def smSingle : StressMarkerConfig :=
  ⟨StressLocation.afterVowel, "\u0301", some StressExclude.single⟩

/-- A one-syllable accented word. -/
def oneSylWord : Word :=
  ⟨"בַּת", [⟨[⟨'ב', false, true, false, some (VowelTok.pt 'ַ')⟩,
    ⟨'ת', false, false, false, none⟩], true, true⟩]⟩

/-- Closed instance of stress_exclude_semantics: exclude single suppresses
the mark on a one-syllable word. -/
theorem stress_exclude_semantics_witness :
    suppressStress smSingle oneSylWord = true :=
  ((stress_exclude_semantics smSingle oneSylWord (by decide)).1 rfl).mpr rfl

theorem strip_filter_letters (l : List Char) :
    (l.filter (fun c => !(isTaam c || isMeteg c || isSofPasuq c))).filter isHebrewLetter
      = l.filter isHebrewLetter := by
  induction l with
  | nil => rfl
  | cons c rest ih =>
    rw [List.filter_cons]
    by_cases hk : (!(isTaam c || isMeteg c || isSofPasuq c)) = true
    · rw [if_pos hk, List.filter_cons, List.filter_cons]
      by_cases hl : isHebrewLetter c = true
      · rw [if_pos hl, if_pos hl, ih]
      · rw [if_neg hl, if_neg hl, ih]
    · have hor : (isTaam c || isMeteg c || isSofPasuq c) = true := by
        rcases Bool.eq_false_or_eq_true (isTaam c || isMeteg c || isSofPasuq c) with h1 | h1
        · exact h1
        · exact absurd (by simp [h1]) hk
      have hlf : ¬ isHebrewLetter c = true := by
        simp only [isTaam, isMeteg, isSofPasuq, Bool.or_eq_true, Bool.and_eq_true,
          decide_eq_true_eq, beq_iff_eq] at hor
        simp only [isHebrewLetter, Bool.and_eq_true, decide_eq_true_eq, not_and, not_le]
        omega
      rw [if_neg hk, ih, List.filter_cons, if_neg hlf]

theorem elohim_implies_divine {t : String} (h : isElohimForm t = true) :
    isDivineName t = true := by
  unfold isElohimForm at h
  unfold isDivineName
  have key : ∀ f : List Char, stripForDivine t = f →
      f.filter isHebrewLetter = divineSkeleton →
      (t.data.filter isHebrewLetter == divineSkeleton) = true := by
    intro f hf hr
    have h2 : t.data.filter isHebrewLetter = divineSkeleton := by
      rw [← strip_filter_letters t.data]
      unfold stripForDivine at hf
      rw [hf, hr]
    simp [h2]
  simp only [Bool.or_eq_true, beq_iff_eq] at h
  rcases h with ((hh | hh) | hh) | hh
  · exact key elohimForm1 hh (by decide)
  · exact key elohimForm2 hh (by decide)
  · exact key elohimForm3 hh (by decide)
  · exact key elohimForm4 hh (by decide)

/-- Claim C9: a word matching one of the ʾelōhîm-vocalized divine-name forms
is replaced wholesale by DIVINE_NAME_ELOHIM when that field is set and by
the plain DIVINE_NAME when it is unset, bypassing per-letter mapping. -/
theorem divine_name_elohim (s : Schema) (w : Word)
    (h : isElohimForm w.original = true) :
    renderWord s w = s.DIVINE_NAME_ELOHIM.getD s.DIVINE_NAME
    ∧ (s.DIVINE_NAME_ELOHIM = none → renderWord s w = s.DIVINE_NAME)
    ∧ ∀ e : String, s.DIVINE_NAME_ELOHIM = some e → renderWord s w = e := by
  have hd : isDivineName w.original = true := elohim_implies_divine h
  refine ⟨?_, fun hn => ?_, fun e he => ?_⟩
  · simp [renderWord, hd, h]
  · simp [renderWord, hd, h, hn]
  · simp [renderWord, hd, h, he]

/-- A segmented word whose text is an ʾelōhîm-pointed divine name. -/
def elohimWord : Word := ⟨"יְהוִֽה׃", []⟩

/-- Closed instance of divine_name_elohim: the ʾelōhîm-pointed name renders
as the configured DIVINE_NAME_ELOHIM, and falls back to yhwh when unset. -/
theorem divine_name_elohim_witness :
    renderWord (SBL { DIVINE_NAME_ELOHIM := some "ʾelōhim" }) elohimWord = "ʾelōhim"
    ∧ renderWord (SBL noOverride) elohimWord = "yhwh" := by
  constructor
  · exact (divine_name_elohim (SBL { DIVINE_NAME_ELOHIM := some "ʾelōhim" })
      elohimWord (by decide)).2.2 "ʾelōhim" rfl
  · exact (divine_name_elohim (SBL noOverride) elohimWord (by decide)).2.1 rfl

/-- Partial schema of the repository's digraph stress test: TSERE_YOD as ei
and a combining acute placed after the vowel. -/
def tsereYodOverride : PartialSchema :=
  { TSERE_YOD := some "ei",
    STRESS_MARKER := some ⟨StressLocation.afterVowel, "\u0301", none⟩ }

/-- The accented syllable of the word bet-tsere-yod-tav. -/
def beytSyl : Syllable :=
  ⟨[⟨'ב', false, true, false, some VowelTok.tsereYod⟩,
    ⟨'ת', false, false, false, none⟩], true, true⟩

/-- The segmented word bet-tsere-yod-tav of the digraph stress test. -/
def beytWord : Word := ⟨"בֵּ֣ית", [beytSyl]⟩

/-- Claim C2, counterexample: with the two-character digraph ei as TSERE_YOD
and an after-vowel mark, the mark lands after the whole digraph — the output
is bei-mark-t, not the be-mark-it that attaching to the digraph's first
letter would give. -/
theorem stress_digraph_counterexample :
    transliterate [beytWord] tsereYodOverride = "bei\u0301t"
    ∧ ¬ transliterate [beytWord] tsereYodOverride = "be\u0301it" := by
  refine ⟨rfl, by decide⟩

/-- Claim C2, amended: for every word with no suppression, each accented
syllable receives the mark immediately before the first character of its
rendered vowel substring when the location is before-vowel, and immediately
after the vowel substring's last character when the location is after-vowel,
so a multi-character digraph carries the mark after its final letter; every
other syllable renders plain. -/
theorem stress_vowel_position (s : Schema) (sm : StressMarkerConfig)
    (w : Word) (hs : s.STRESS_MARKER = some sm)
    (hsup : suppressStress sm w = false) (hdiv : isDivineName w.original = false) :
    (sm.location = StressLocation.beforeVowel →
        renderWord s w = joinSep (s.SYLLABLE_SEPARATOR.getD "")
          (w.syllables.map (fun syl =>
            if syl.isAccented then
              (renderSylParts s syl).1 ++ sm.mark ++ (renderSylParts s syl).2.1
                ++ (renderSylParts s syl).2.2
            else flat3 (renderSylParts s syl))))
    ∧ (sm.location = StressLocation.afterVowel →
        renderWord s w = joinSep (s.SYLLABLE_SEPARATOR.getD "")
          (w.syllables.map (fun syl =>
            if syl.isAccented then
              (renderSylParts s syl).1 ++ (renderSylParts s syl).2.1 ++ sm.mark
                ++ (renderSylParts s syl).2.2
            else flat3 (renderSylParts s syl)))) := by
  refine ⟨fun hl => ?_, fun hl => ?_⟩ <;>
  · unfold renderWord renderWordCore
    simp only [hdiv, Bool.false_eq_true, if_false]
    rw [hs]
    dsimp only
    rw [hl]
    simp only [hsup, Bool.not_false, Bool.and_true, applyStress]

/-- Partial schema of the repository's before-vowel stress test: a combining
acute placed before the vowel. -/
def melekOverride : PartialSchema :=
  { STRESS_MARKER := some ⟨StressLocation.beforeVowel, "\u0301", none⟩ }

/-- The segmented two-syllable word mem-segol, lamed-segol-final-kaf of the
before-vowel stress test, accented on the first syllable. -/
def melekWord : Word :=
  ⟨"מֶ֣לֶךְ",
    [⟨[⟨'מ', false, false, false, some (VowelTok.pt 'ֶ')⟩], true, false⟩,
     ⟨[⟨'ל', false, false, false, some (VowelTok.pt 'ֶ')⟩,
       ⟨'ך', false, false, false, none⟩], false, true⟩]⟩

/-- Closed instance of stress_vowel_position: the two-syllable melek word
renders with the mark immediately before the accented vowel, and the
digraph stress test input renders with the mark after the full digraph. -/
theorem stress_vowel_position_witness :
    renderWord (SBL melekOverride) melekWord = "m\u0301elek"
    ∧ renderWord (SBL tsereYodOverride) beytWord = "bei\u0301t" := by
  constructor
  · have h := (stress_vowel_position (SBL melekOverride)
        ⟨StressLocation.beforeVowel, "\u0301", none⟩ melekWord
        rfl rfl (by decide)).1 rfl
    rw [h]
    rfl
  · have h := (stress_vowel_position (SBL tsereYodOverride)
        ⟨StressLocation.afterVowel, "\u0301", none⟩ beytWord
        rfl rfl (by decide)).2 rfl
    rw [h]
    rfl

end HebrewTransliteration
